import Mathlib

/-!
# Verification of the CDP browser-automation action layer

Shallow embedding of the orchestration logic of the browser-automation
service (tab registry, element resolution, interaction dispatch, the
human-intervention state machine, drag-path computation and cookie
verification), together with theorems settling the specification's
claims about it.

Conventions used throughout:
* Python `int` fields become `Int`; list indices that are known
  non-negative become `Nat`.
* Browser-side effects (a Playwright call succeeding or raising) are
  passed in as explicit boolean/list parameters, so every embedded
  operation is a pure function of its inputs.
* Page/element coordinates are rationals (`ℚ`): the source only adds,
  subtracts, halves and divides them, which is exact arithmetic.
-/

/-- Error taxonomy of the action layer (spec §7). Each constructor
corresponds to one failure message family produced by the source. -/
inductive ErrKind
  | elementNotFound
  | indexOutOfRange
  | invalidOperation
  | interventionNotFound
  | noActiveIntervention
  | upstreamFailure
deriving DecidableEq, Repr

/-- Outcome of a tab-management action: either success or a failure
carrying its error kind. -/
inductive TabOutcome
  | success
  | failure (e : ErrKind)
deriving DecidableEq, Repr

/-- The session/tab registry (`BrowserAutomation.__init__`): the ordered
list of open pages (identified here by their URL), the index of the
active page, and the optional frame override.  From
`core/browser_automation.py` lines 20-23. -/
structure Registry where
  pages : List String
  current_page_index : Nat
  current_frame : Option Nat
deriving DecidableEq, Repr

/-- The execution context an interaction targets: a page (identified by
its URL) or a frame. -/
inductive BrowserContext
  | page (url : String)
  | frame (fid : Nat)
deriving DecidableEq, Repr

/-- `BrowserAutomation.get_current_page`: the page at
`current_page_index`, or `none` when no such page exists (the source
raises in that case).  From `core/browser_automation.py` lines 159-163. -/
def get_current_page (r : Registry) : Option String :=
  r.pages.get? r.current_page_index

/-- `BrowserAutomation.get_current_context`: the current frame when one
is set (a frame object is truthy), else the current page.  From
`core/browser_automation.py` lines 165-169. -/
def get_current_context (r : Registry) : Option BrowserContext :=
  match r.current_frame with
  | some f => some (BrowserContext.frame f)
  | none => (get_current_page r).map BrowserContext.page

/-- `TabManagementActions.switch_tab` (registry effect): bounds-check
the index, then set `current_page_index` and reset `current_frame` to
`none`.  From `actions/tab_management.py` lines 14-68. -/
def switch_tab (r : Registry) (tab_index : Int) : Registry × TabOutcome :=
  if tab_index < 0 ∨ (r.pages.length : Int) ≤ tab_index then
    (r, TabOutcome.failure ErrKind.indexOutOfRange)
  else
    ({ r with current_page_index := tab_index.toNat, current_frame := none },
     TabOutcome.success)

/-- `TabManagementActions.close_tab` (registry effect): bounds-check the
index first, then refuse to close the last remaining tab, then (when
the browser-side `page.close()` call succeeds, `closeOk`) remove the
page, pull the current pointer back by one when the removed index is at
or before it (`max 0` via truncated subtraction), and reset
`current_frame`.  From `actions/tab_management.py` lines 143-224. -/
def close_tab (r : Registry) (tab_index : Int) (closeOk : Bool) :
    Registry × TabOutcome :=
  if tab_index < 0 ∨ (r.pages.length : Int) ≤ tab_index then
    (r, TabOutcome.failure ErrKind.indexOutOfRange)
  else if r.pages.length ≤ 1 then
    (r, TabOutcome.failure ErrKind.invalidOperation)
  else if closeOk then
    let k := tab_index.toNat
    ({ pages := r.pages.eraseIdx k,
       current_page_index :=
         if k ≤ r.current_page_index then r.current_page_index - 1
         else r.current_page_index,
       current_frame := none },
     TabOutcome.success)
  else
    (r, TabOutcome.failure ErrKind.upstreamFailure)

/-- `NavigationActions.navigate_to` (registry effect): `page.goto`
changes the current page's URL when it succeeds (`gotoOk`) and the
action reports the corresponding success flag; the registry's
`current_page_index` and `current_frame` are not touched anywhere in
the function body.  From `actions/navigation.py` lines 14-78. -/
def navigate_to (r : Registry) (url : String) (gotoOk : Bool) :
    Registry × Bool :=
  if gotoOk then
    ({ r with pages := r.pages.set r.current_page_index url }, true)
  else
    (r, false)

/-- A rectangle in page space (`CoordinateSet` in `models/dom_models`):
x, y, width, height. -/
structure CoordinateSet where
  x : ℚ
  y : ℚ
  width : ℚ
  height : ℚ
deriving DecidableEq, Repr

/-- One interactive DOM node as stored in the selector map
(`DOMElementNode`, restricted to the fields the embedded actions read). -/
structure DOMElementNode where
  tag_name : String
  attributes : List (String × String)
  page_coordinates : Option CoordinateSet
  highlight_index : Int
deriving DecidableEq, Repr

/-- The selector map: integer index to element, as built by
`DOMHandler.get_selector_map`. -/
abbrev SelectorMap := List (Int × DOMElementNode)

/-- Dictionary lookup in the selector map. -/
def lookupSel (m : SelectorMap) (i : Int) : Option DOMElementNode :=
  (m.find? (fun p => p.1 = i)).map Prod.snd

/-- The dummy element installed by `get_selector_map` when evaluating
the page script fails (`core/dom_handler.py` lines 144-155): an anchor
with an `href` attribute, highlight index 1 and no geometry. -/
def dummy_element : DOMElementNode :=
  { tag_name := "a",
    attributes := [("href", "#")],
    page_coordinates := none,
    highlight_index := 1 }

/-- Key assignment of `get_selector_map`: the page script numbers the
visible interactive elements `index + 1` in enumeration order and the
Python side keys the map by that number (`core/dom_handler.py` lines
52-60 and 137).  `n` is the number of elements already consumed. -/
def number_elements : Nat → List DOMElementNode → SelectorMap
  | _, [] => []
  | n, el :: rest => ((n : Int) + 1, el) :: number_elements (n + 1) rest

/-- `DOMHandler.get_selector_map`: on success the enumerated map keyed
from 1 upward; on an evaluation error the single dummy entry at key 1.
From `core/dom_handler.py` lines 16-157. -/
def get_selector_map (els : List DOMElementNode) (evalOk : Bool) :
    SelectorMap :=
  if evalOk then number_elements 0 els else [(1, dummy_element)]

/-- The attribute-truthiness test used by the interaction actions:
`"k" in element.attributes and element.attributes["k"]` — present and
non-empty.  Returns the value when usable. -/
def attr_value (el : DOMElementNode) (key : String) : Option String :=
  match el.attributes.find? (fun p => p.1 = key) with
  | some p => if p.2 = "" then none else some p.2
  | none => none

/-- A selector derived from element attributes: an id-based selector
(source builds the string `#` followed by the id) or a name-based
attribute selector. -/
inductive SelectorChoice
  | byId (v : String)
  | byName (v : String)
deriving DecidableEq, Repr

/-- Strategy choice shared by `click_element` and `input_text` in the
index path (`actions/interaction.py` lines 73-82 and 281-290): a
non-empty `id` attribute wins, else a non-empty `name` attribute, else
no attribute-based selector. -/
def preferred_selector (el : DOMElementNode) : Option SelectorChoice :=
  match attr_value el "id" with
  | some v => some (SelectorChoice.byId v)
  | none =>
    match attr_value el "name" with
    | some v => some (SelectorChoice.byName v)
    | none => none

/-- The coordinate fallback computed alongside the selector
(`actions/interaction.py` lines 85-90 and 292-298): the element's
page-space center, when geometry is known. -/
def center_coordinates (el : DOMElementNode) : Option (ℚ × ℚ) :=
  el.page_coordinates.map
    (fun c => (c.x + c.width / 2, c.y + c.height / 2))

/-- A primitive browser operation issued by an interaction action.
`clickHandle`/`fillHandle` act on an element handle resolved from a CSS
selector; `fillSel`, `focusSel`, `clickSel` act through a derived
selector; `mouseClick`, `keyType`, `keyCtrlA`, `keyBackspace` are
page-level input-device operations. -/
inductive BrowserOp
  | clickHandle
  | fillHandle (text : String)
  | fillSel (s : SelectorChoice) (text : String)
  | focusSel (s : SelectorChoice)
  | clickSel (s : SelectorChoice)
  | mouseClick (x y : ℚ)
  | keyType (text : String)
  | keyCtrlA
  | keyBackspace
deriving DecidableEq, Repr

/-- Result of dispatching a click/type action: an element-not-found
failure (selector or index form), a resolved element with no usable
selector and no geometry, or the list of primitive operations the
action performs against the browser. -/
inductive Dispatch
  | notFoundSelector (sel : String)
  | notFoundIndex (index : Int)
  | noTarget (index : Int)
  | perform (ops : List BrowserOp)
deriving DecidableEq, Repr

/-- `InteractionActions.input_text`, CSS-selector path, primary attempt
(`actions/interaction.py` lines 249-251): click the element handle to
focus it, then `fill` it with the new text. -/
def input_text_ops_css (text : String) : List BrowserOp :=
  [BrowserOp.clickHandle, BrowserOp.fillHandle text]

/-- `InteractionActions.input_text`, index path with a derived selector,
primary attempt (lines 304-308): `fill` the selector with the empty
string, then `fill` it with the new text. -/
def input_text_ops_selector (s : SelectorChoice) (text : String) :
    List BrowserOp :=
  [BrowserOp.fillSel s "", BrowserOp.fillSel s text]

/-- `InteractionActions.input_text`, index path falling back to element
coordinates because no selector could be derived, primary attempt
(lines 309-319): mouse-click the center to focus, then type the text
with the keyboard. -/
def input_text_ops_coords (x y : ℚ) (text : String) : List BrowserOp :=
  [BrowserOp.mouseClick x y, BrowserOp.keyType text]

/-- `InteractionActions.input_text`, coordinate retry taken when the
selector-based primary attempt raised (lines 340-357): click the
center, select all, backspace, then type the text. -/
def input_text_ops_fallback (x y : ℚ) (text : String) : List BrowserOp :=
  [BrowserOp.mouseClick x y, BrowserOp.keyCtrlA, BrowserOp.keyBackspace,
   BrowserOp.keyType text]

/-- `InteractionActions.click_element`, index path with a derived
selector (lines 92-103): focus first when the element is a text-entry
tag, then click the selector. -/
def click_ops_selector (s : SelectorChoice) (isInput : Bool) :
    List BrowserOp :=
  (if isInput then [BrowserOp.focusSel s] else []) ++ [BrowserOp.clickSel s]

/-- `InteractionActions.click_element`, index path at element
coordinates (lines 104-108): a single mouse click at the center. -/
def click_ops_coords (x y : ℚ) : List BrowserOp :=
  [BrowserOp.mouseClick x y]

/-- Index path of `click_element` (lines 52-118): default the index to
0 when absent, look it up in the selector map (failing with the
element-not-found result when absent), then dispatch per the derived
selector or the coordinate fallback. -/
def click_element_by_index (m : SelectorMap) (index? : Option Int) :
    Dispatch :=
  let index := index?.getD 0
  match lookupSel m index with
  | none => Dispatch.notFoundIndex index
  | some el =>
    match preferred_selector el with
    | some s =>
      Dispatch.perform
        (click_ops_selector s
          (el.tag_name = "input" ∨ el.tag_name = "textarea" ∨
            el.tag_name = "select"))
    | none =>
      match center_coordinates el with
      | some (x, y) => Dispatch.perform (click_ops_coords x y)
      | none => Dispatch.noTarget index

/-- Index path of `input_text` (lines 263-329), structured like
`click_element_by_index`. -/
def input_text_by_index (m : SelectorMap) (index? : Option Int)
    (text : String) : Dispatch :=
  let index := index?.getD 0
  match lookupSel m index with
  | none => Dispatch.notFoundIndex index
  | some el =>
    match preferred_selector el with
    | some s => Dispatch.perform (input_text_ops_selector s text)
    | none =>
      match center_coordinates el with
      | some (x, y) => Dispatch.perform (input_text_ops_coords x y text)
      | none => Dispatch.noTarget index

/-- `InteractionActions.click_element` (lines 14-160): a truthy CSS
selector takes the live-query path (`cssFound` says whether
`query_selector` returned a handle); otherwise the index path runs. -/
def click_element (m : SelectorMap) (selector? : Option String)
    (index? : Option Int) (cssFound : Bool) : Dispatch :=
  match selector? with
  | some sel =>
    if sel = "" then click_element_by_index m index?
    else if cssFound then Dispatch.perform [BrowserOp.clickHandle]
    else Dispatch.notFoundSelector sel
  | none => click_element_by_index m index?

/-- `InteractionActions.input_text` (lines 223-396), top-level dispatch
mirroring `click_element`. -/
def input_text (m : SelectorMap) (selector? : Option String)
    (index? : Option Int) (text : String) (cssFound : Bool) : Dispatch :=
  match selector? with
  | some sel =>
    if sel = "" then input_text_by_index m index? text
    else if cssFound then Dispatch.perform (input_text_ops_css text)
    else Dispatch.notFoundSelector sel
  | none => input_text_by_index m index? text

/-- The state of the text field an interaction targets: its content and
whether all of it is currently selected. -/
structure FieldState where
  content : String
  allSelected : Bool
deriving DecidableEq, Repr

/-- Semantics of one primitive browser operation on the targeted field:
`fill` replaces the content outright; a click collapses any selection;
typing replaces the selection when everything is selected and otherwise
appends at the caret; Ctrl+A selects all; Backspace deletes the
selection, or one trailing character when nothing is selected. -/
def applyOp (f : FieldState) : BrowserOp → FieldState
  | BrowserOp.clickHandle => { f with allSelected := false }
  | BrowserOp.fillHandle t => ⟨t, false⟩
  | BrowserOp.fillSel _ t => ⟨t, false⟩
  | BrowserOp.focusSel _ => f
  | BrowserOp.clickSel _ => { f with allSelected := false }
  | BrowserOp.mouseClick _ _ => { f with allSelected := false }
  | BrowserOp.keyType t =>
    if f.allSelected then ⟨t, false⟩ else ⟨f.content ++ t, false⟩
  | BrowserOp.keyCtrlA => { f with allSelected := true }
  | BrowserOp.keyBackspace =>
    if f.allSelected then ⟨"", false⟩ else ⟨f.content.dropRight 1, false⟩

/-- Run a sequence of primitive operations on a field. -/
def runOps (f : FieldState) (ops : List BrowserOp) : FieldState :=
  ops.foldl applyOp f

/-- Status of an intervention request (`InterventionStatus` in
`models/intervention_models.py`). -/
inductive IvStatus
  | pending
  | in_progress
  | completed
  | timeout
  | cancelled
  | failed
deriving DecidableEq, Repr

/-- One intervention request (`InterventionRequest`), restricted to the
fields the status engine reads; times are in whole seconds. -/
structure InterventionReq where
  id : String
  status : IvStatus
  timeout_seconds : Int
  created_at : Int
  completed_at : Option Int
deriving DecidableEq, Repr

/-- The active-intervention registry
(`HumanInterventionActions._active_interventions`), a dictionary keyed
by id, embedded as a duplicate-free association list. -/
abbrev InterventionRegistry := List InterventionReq

/-- Dictionary lookup by intervention id. -/
def lookup_intervention (reg : InterventionRegistry) (iid : String) :
    Option InterventionReq :=
  reg.find? (fun iv => iv.id = iid)

/-- Eviction from the active registry (`del _active_interventions[id]`). -/
def erase_intervention (reg : InterventionRegistry) (iid : String) :
    InterventionRegistry :=
  reg.filter (fun iv => iv.id ≠ iid)

/-- `max(values, key=created_at)` as used to select the latest active
intervention (`actions/human_intervention.py` lines 193-198): the first
of the entries with the greatest `created_at`; `none` on an empty
registry (the source guards that case separately). -/
def latest_intervention : InterventionRegistry → Option InterventionReq
  | [] => none
  | iv :: rest =>
    match latest_intervention rest with
    | none => some iv
    | some best =>
      if best.created_at > iv.created_at then some best else some iv

/-- Result of a `get_intervention_status` call: a failure, or the
reported pair of status and remaining time together with the stamped
completion time. -/
inductive StatusOutcome
  | failure (e : ErrKind)
  | ok (iid : String) (st : IvStatus) (time_remaining : Option Int)
      (completed_at : Option Int)
deriving DecidableEq, Repr

/-- Shared tail of `get_intervention_status` once a request is selected
(`actions/human_intervention.py` lines 211-244): a pending request past
its deadline (`elapsed > timeout_seconds`, strictly) transitions to
`timeout`, is stamped `completed_at := now`, and is evicted from the
registry; otherwise the registry is unchanged and remaining time is
reported as `max 0 (timeout_seconds - elapsed)` for pending requests. -/
def process_status (reg : InterventionRegistry) (now : Int)
    (iv : InterventionReq) : InterventionRegistry × StatusOutcome :=
  if iv.status = IvStatus.pending ∧ now - iv.created_at > iv.timeout_seconds
  then
    (erase_intervention reg iv.id,
     StatusOutcome.ok iv.id IvStatus.timeout none (some now))
  else
    (reg,
     StatusOutcome.ok iv.id iv.status
       (if iv.status = IvStatus.pending then
          some (max 0 (iv.timeout_seconds - (now - iv.created_at)))
        else none)
       iv.completed_at)

/-- `HumanInterventionActions.get_intervention_status` (lines 180-252):
with no id, select the latest active request (failing with
no-active-intervention on an empty registry); with an id, look it up
(failing with intervention-not-found when absent); then run the lazy
timeout check of `process_status`. -/
def get_intervention_status (reg : InterventionRegistry) (now : Int)
    (iid? : Option String) : InterventionRegistry × StatusOutcome :=
  match iid? with
  | none =>
    match latest_intervention reg with
    | none => (reg, StatusOutcome.failure ErrKind.noActiveIntervention)
    | some iv => process_status reg now iv
  | some iid =>
    match lookup_intervention reg iid with
    | none => (reg, StatusOutcome.failure ErrKind.interventionNotFound)
    | some iv => process_status reg now iv

/-- The intermediate mouse positions of `DragDropActions.drag_drop`
(`actions/drag_drop.py` lines 238-245): step deltas are the coordinate
differences divided by `steps`, and the loop issues one move per
`i = 1 .. steps` at `source + delta * i`. -/
def drag_path (sx sy tx ty : ℚ) (steps : Nat) : List (ℚ × ℚ) :=
  (List.range steps).map
    (fun i : Nat =>
      (sx + (tx - sx) / steps * ((i : ℚ) + 1),
       sy + (ty - sy) / steps * ((i : ℚ) + 1)))

/-- Defaulting of the drag parameters (`actions/drag_drop.py` lines
226-227): `steps` falls back to 10 and the inter-step delay to 5 ms
when unspecified. -/
def drag_params (steps? delay? : Option Nat) : Nat × Nat :=
  (steps?.getD 10, delay?.getD 5)

/-- A browser cookie as observed through `context.cookies()`, restricted
to the fields the verification loop reads. -/
structure BrowserCookie where
  name : String
  value : String
deriving DecidableEq, Repr

/-- The match test of the cookie verification loop
(`actions/cookies.py` lines 155-156): same name and same value. -/
def cookie_matches (n v : String) (c : BrowserCookie) : Bool :=
  c.name = n ∧ c.value = v

/-- `CookieStorageActions._set_cookie` (lines 107-176), reporting logic:
reject empty name or value outright; otherwise add the cookie and
verify it against the listing (`jar1`), retrying once against a second
listing (`jar2`); report success exactly when one of the two
verification listings contains a cookie with matching name and value. -/
def set_cookie_verify (name value : String)
    (jar1 jar2 : List BrowserCookie) : Bool :=
  if name = "" ∨ value = "" then false
  else if jar1.any (cookie_matches name value) then true
  else if jar2.any (cookie_matches name value) then true
  else false

/-- A concrete page-space rectangle used by concrete evaluations:
x 10, y 20, width 30, height 40, so the center is (25, 40). -/
def sample_rect : CoordinateSet := ⟨10, 20, 30, 40⟩

/-- A concrete element with neither an `id` nor a `name` attribute but
with known geometry — the coordinate-fallback tier of the strategy. -/
def coords_only_element : DOMElementNode :=
  { tag_name := "input",
    attributes := [],
    page_coordinates := some sample_rect,
    highlight_index := 1 }

/-- A one-entry selector map holding `coords_only_element` at index 1. -/
def coords_only_map : SelectorMap := [(1, coords_only_element)]

/-- A concrete pending intervention: id "a", 10-second timeout, created
at time 0. -/
def sample_intervention : InterventionReq :=
  { id := "a",
    status := IvStatus.pending,
    timeout_seconds := 10,
    created_at := 0,
    completed_at := none }

/-- Claim C1 counterexample: a navigation that completes successfully
does not reset `currentFrame` — with a frame set before the call,
`navigate_to` succeeds and the frame override survives, so
`get_current_context` still returns the stale frame. -/
theorem navigate_to_keeps_stale_frame_cex :
    (navigate_to ⟨["a"], 0, some 7⟩ "b" true).2 = true ∧
    (navigate_to ⟨["a"], 0, some 7⟩ "b" true).1.current_frame = some 7 ∧
    get_current_context (navigate_to ⟨["a"], 0, some 7⟩ "b" true).1 =
      some (BrowserContext.frame 7) := by
  decide

/-- Claim C1 (amended): a successful `switch_tab` resets
`current_frame` to `none`, after which `get_current_context` returns
the current page; `navigate_to`, in contrast, leaves `current_frame`
exactly as it was. -/
theorem switch_tab_resets_frame_navigate_preserves_frame
    (r : Registry) (k : Int) (url : String) (ok : Bool)
    (h : (switch_tab r k).2 = TabOutcome.success) :
    (switch_tab r k).1.current_frame = none ∧
    get_current_context (switch_tab r k).1 =
      (get_current_page (switch_tab r k).1).map BrowserContext.page ∧
    (navigate_to r url ok).1.current_frame = r.current_frame := by
  by_cases hc : k < 0 ∨ (r.pages.length : Int) ≤ k
  · simp [switch_tab, hc] at h
  · refine ⟨?_, ?_, ?_⟩
    · simp [switch_tab, hc]
    · simp [switch_tab, hc, get_current_context]
    · cases ok <;> simp [navigate_to]

/-- Witness for the C1 theorem at a concrete registry. -/
theorem switch_tab_resets_frame_navigate_preserves_frame_witness :
    (switch_tab ⟨["a", "b"], 0, some 3⟩ 1).2 = TabOutcome.success ∧
    ((switch_tab ⟨["a", "b"], 0, some 3⟩ 1).1.current_frame = none ∧
     get_current_context (switch_tab ⟨["a", "b"], 0, some 3⟩ 1).1 =
       (get_current_page (switch_tab ⟨["a", "b"], 0, some 3⟩ 1).1).map
         BrowserContext.page ∧
     (navigate_to ⟨["a", "b"], 0, some 3⟩ "u" true).1.current_frame =
       (⟨["a", "b"], 0, some 3⟩ : Registry).current_frame) :=
  ⟨by decide,
   switch_tab_resets_frame_navigate_preserves_frame
     ⟨["a", "b"], 0, some 3⟩ 1 "u" true (by decide)⟩

/-- Claim C4 counterexample: with exactly one open tab, `close_tab`
with the out-of-range index 5 fails with the index-out-of-range error,
not the invalid-operation (cannot close last tab) error, because the
bounds check runs first. -/
theorem close_tab_single_tab_bad_index_cex :
    close_tab ⟨["p"], 0, none⟩ 5 true =
      (⟨["p"], 0, none⟩, TabOutcome.failure ErrKind.indexOutOfRange) ∧
    ErrKind.indexOutOfRange ≠ ErrKind.invalidOperation := by
  decide

/-- Claim C4 (amended): with exactly one open tab, `close_tab` always
fails and leaves the registry unchanged; the reported error is the
invalid-operation (cannot close the last tab) error when the supplied
index is the one in-range index 0, and index-out-of-range otherwise. -/
theorem close_tab_last_tab (r : Registry) (k : Int) (ok : Bool)
    (h : r.pages.length = 1) :
    close_tab r k ok =
      (r, TabOutcome.failure
        (if k = 0 then ErrKind.invalidOperation
         else ErrKind.indexOutOfRange)) := by
  by_cases hk : k = 0
  · subst hk
    simp [close_tab, h]
  · have hc : k < 0 ∨ (r.pages.length : Int) ≤ k := by
      rw [h]; omega
    simp [close_tab, hc, hk]

/-- Witness for the C4 theorem at a concrete one-tab registry. -/
theorem close_tab_last_tab_witness :
    (⟨["p"], 0, none⟩ : Registry).pages.length = 1 ∧
    close_tab ⟨["p"], 0, none⟩ 0 true =
      (⟨["p"], 0, none⟩, TabOutcome.failure
        (if (0 : Int) = 0 then ErrKind.invalidOperation
         else ErrKind.indexOutOfRange)) :=
  ⟨by decide, close_tab_last_tab ⟨["p"], 0, none⟩ 0 true (by decide)⟩

/-- Claim C5: a successful `close_tab` of an in-range index `k` with
more than one tab open removes exactly the page at `k`, pulls the
current pointer back by one (with truncated, i.e. zero-floored, `Nat`
subtraction) exactly when `k` is at or before it, and leaves the
pointer a valid index into the remaining pages. -/
theorem close_tab_success_pointer (r : Registry) (k : Int)
    (h2 : 2 ≤ r.pages.length) (hk0 : 0 ≤ k)
    (hk : k < (r.pages.length : Int))
    (hcur : r.current_page_index < r.pages.length) :
    (close_tab r k true).2 = TabOutcome.success ∧
    (close_tab r k true).1.pages = r.pages.eraseIdx k.toNat ∧
    (close_tab r k true).1.current_page_index =
      (if k.toNat ≤ r.current_page_index then r.current_page_index - 1
       else r.current_page_index) ∧
    (close_tab r k true).1.current_page_index <
      (close_tab r k true).1.pages.length := by
  have hc : ¬(k < 0 ∨ (r.pages.length : Int) ≤ k) := by omega
  have h1 : ¬(r.pages.length ≤ 1) := by omega
  have hklen : k.toNat < r.pages.length := by omega
  have hlen : (r.pages.eraseIdx k.toNat).length = r.pages.length - 1 :=
    List.length_eraseIdx_of_lt hklen
  refine ⟨by simp [close_tab, hc, h1], by simp [close_tab, hc, h1],
    by simp [close_tab, hc, h1], ?_⟩
  simp only [close_tab, hc, h1, if_false, if_true, ite_false, ite_true]
  by_cases hle : k.toNat ≤ r.current_page_index <;>
    simp [hle, hlen] <;> omega

/-- Witness for the C5 theorem at a concrete three-tab registry. -/
theorem close_tab_success_pointer_witness :
    (2 ≤ (⟨["a", "b", "c"], 2, some 1⟩ : Registry).pages.length ∧
     (0 : Int) ≤ 1 ∧
     (1 : Int) < ((⟨["a", "b", "c"], 2, some 1⟩ : Registry).pages.length : Int) ∧
     (⟨["a", "b", "c"], 2, some 1⟩ : Registry).current_page_index <
       (⟨["a", "b", "c"], 2, some 1⟩ : Registry).pages.length) ∧
    ((close_tab ⟨["a", "b", "c"], 2, some 1⟩ 1 true).2 = TabOutcome.success ∧
     (close_tab ⟨["a", "b", "c"], 2, some 1⟩ 1 true).1.pages =
       (⟨["a", "b", "c"], 2, some 1⟩ : Registry).pages.eraseIdx (1 : Int).toNat ∧
     (close_tab ⟨["a", "b", "c"], 2, some 1⟩ 1 true).1.current_page_index =
       (if (1 : Int).toNat ≤ (⟨["a", "b", "c"], 2, some 1⟩ : Registry).current_page_index
        then (⟨["a", "b", "c"], 2, some 1⟩ : Registry).current_page_index - 1
        else (⟨["a", "b", "c"], 2, some 1⟩ : Registry).current_page_index) ∧
     (close_tab ⟨["a", "b", "c"], 2, some 1⟩ 1 true).1.current_page_index <
       (close_tab ⟨["a", "b", "c"], 2, some 1⟩ 1 true).1.pages.length) :=
  ⟨⟨by decide, by decide, by decide, by decide⟩,
   close_tab_success_pointer ⟨["a", "b", "c"], 2, some 1⟩ 1
     (by decide) (by decide) (by decide) (by decide)⟩

/-- Claim C2 counterexample: `input_text` by index on an element with
neither id nor name resolves to the coordinate strategy, whose primary
path clicks and types without clearing — starting from content "old",
typing "new" leaves "oldnew", not "new". -/
theorem input_text_coords_no_clear_cex :
    input_text coords_only_map none (some 1) "new" false =
      Dispatch.perform (input_text_ops_coords 25 40 "new") ∧
    (runOps ⟨"old", false⟩ (input_text_ops_coords 25 40 "new")).content =
      "oldnew" ∧
    "oldnew" ≠ "new" := by
  refine ⟨?_, by decide, by decide⟩
  norm_num [input_text, input_text_by_index, lookupSel, coords_only_map,
    coords_only_element, preferred_selector, attr_value,
    center_coordinates, sample_rect, input_text_ops_coords]

/-- Claim C2 (amended): the CSS-selector path and the derived-selector
index path of `input_text` replace the target's content with exactly
the new text, and so does the coordinate retry taken after a failed
selector attempt (click, select-all, backspace, type); the primary
coordinate strategy, however, merely clicks and types, leaving the old
content with the new text appended. -/
theorem input_text_strategy_clearing (f : FieldState) (text : String)
    (s : SelectorChoice) (x y : ℚ) :
    (runOps f (input_text_ops_css text)).content = text ∧
    (runOps f (input_text_ops_selector s text)).content = text ∧
    runOps f (input_text_ops_coords x y text) =
      ⟨f.content ++ text, false⟩ ∧
    (runOps f (input_text_ops_fallback x y text)).content = text := by
  rcases f with ⟨c, sel⟩
  refine ⟨rfl, rfl, ?_, ?_⟩ <;>
    simp [runOps, applyOp, input_text_ops_coords, input_text_ops_fallback]

/-- Claim C6: target-strategy precedence of the index-based interaction
path — a usable (non-empty) `id` attribute yields the id-based selector;
with no usable `id`, a usable `name` attribute yields the name-based
selector; with neither, known geometry makes both `click_element` and
`input_text` act at the element's computed center (click, respectively
click-to-focus plus keyboard typing) rather than fail. -/
theorem interaction_strategy_precedence (m : SelectorMap) (i : Int)
    (el : DOMElementNode) (text : String)
    (hel : lookupSel m i = some el) :
    (∀ v, attr_value el "id" = some v →
      preferred_selector el = some (SelectorChoice.byId v)) ∧
    (∀ v, attr_value el "id" = none → attr_value el "name" = some v →
      preferred_selector el = some (SelectorChoice.byName v)) ∧
    (∀ c, attr_value el "id" = none → attr_value el "name" = none →
      el.page_coordinates = some c →
      click_element_by_index m (some i) =
        Dispatch.perform
          [BrowserOp.mouseClick (c.x + c.width / 2) (c.y + c.height / 2)] ∧
      input_text_by_index m (some i) text =
        Dispatch.perform
          [BrowserOp.mouseClick (c.x + c.width / 2) (c.y + c.height / 2),
           BrowserOp.keyType text]) := by
  refine ⟨?_, ?_, ?_⟩
  · intro v hv
    simp [preferred_selector, hv]
  · intro v hid hname
    simp [preferred_selector, hid, hname]
  · intro c hid hname hc
    have hps : preferred_selector el = none := by
      simp [preferred_selector, hid, hname]
    have hcc : center_coordinates el =
        some (c.x + c.width / 2, c.y + c.height / 2) := by
      simp [center_coordinates, hc]
    constructor
    · simp [click_element_by_index, hel, hps, hcc, click_ops_coords]
    · simp [input_text_by_index, hel, hps, hcc, input_text_ops_coords]

/-- Witness for the C6 theorem: the coordinate tier at the concrete
element with no attributes and center (25, 40). -/
theorem interaction_strategy_precedence_witness :
    lookupSel coords_only_map 1 = some coords_only_element ∧
    click_element_by_index coords_only_map (some 1) =
      Dispatch.perform
        [BrowserOp.mouseClick (sample_rect.x + sample_rect.width / 2)
          (sample_rect.y + sample_rect.height / 2)] ∧
    input_text_by_index coords_only_map (some 1) "t" =
      Dispatch.perform
        [BrowserOp.mouseClick (sample_rect.x + sample_rect.width / 2)
          (sample_rect.y + sample_rect.height / 2),
         BrowserOp.keyType "t"] := by
  have h := (interaction_strategy_precedence coords_only_map 1
    coords_only_element "t" (by decide)).2.2 sample_rect
    (by decide) (by decide) rfl
  exact ⟨by decide, h.1, h.2⟩

/-- Claim C8: an index absent from the selector map makes both
`click_element` and `input_text` (index path, no CSS selector) return
the element-not-found failure for that index — never a default or
fallback target, and no browser operation is dispatched. -/
theorem index_not_in_map_not_found (m : SelectorMap) (i : Int)
    (text : String) (b1 b2 : Bool) (h : lookupSel m i = none) :
    click_element m none (some i) b1 = Dispatch.notFoundIndex i ∧
    input_text m none (some i) text b2 = Dispatch.notFoundIndex i := by
  constructor
  · simp [click_element, click_element_by_index, h]
  · simp [input_text, input_text_by_index, h]

/-- Witness for the C8 theorem: index 3 on an empty selector map. -/
theorem index_not_in_map_not_found_witness :
    lookupSel [] 3 = none ∧
    click_element [] none (some 3) true = Dispatch.notFoundIndex 3 ∧
    input_text [] none (some 3) "t" true = Dispatch.notFoundIndex 3 := by
  have h := index_not_in_map_not_found [] 3 "t" true true (by decide)
  exact ⟨by decide, h.1, h.2⟩

/-- Every key produced by the enumeration of `get_selector_map` is at
least `n + 1`, so a key at or below `n` is never present. -/
theorem lookupSel_number_elements_le (els : List DOMElementNode) :
    ∀ (n : Nat) (i : Int), i ≤ n →
      lookupSel (number_elements n els) i = none := by
  induction els with
  | nil =>
    intro n i _
    rfl
  | cons el rest ih =>
    intro n i hi
    have h1 : ¬((n : Int) + 1 = i) := by omega
    have htail := ih (n + 1) i (by omega)
    simp only [lookupSel] at htail ⊢
    simp only [number_elements, List.find?_cons]
    simp [h1, htail]

/-- Claim C10: with neither a CSS selector nor an index, the index
defaults to 0; every key of any map built by `get_selector_map` is at
least 1 (enumeration keys are `position + 1`, and the error-path dummy
entry sits at key 1), so both `click_element` and `input_text` fail
with element-not-found for index 0 and dispatch no browser operation. -/
theorem default_index_zero_not_found (els : List DOMElementNode)
    (evalOk : Bool) (text : String) (b1 b2 : Bool) :
    click_element (get_selector_map els evalOk) none none b1 =
      Dispatch.notFoundIndex 0 ∧
    input_text (get_selector_map els evalOk) none none text b2 =
      Dispatch.notFoundIndex 0 := by
  have h : lookupSel (get_selector_map els evalOk) 0 = none := by
    cases evalOk with
    | true =>
      simpa [get_selector_map] using
        lookupSel_number_elements_le els 0 0 le_rfl
    | false => rfl
  constructor
  · simp [click_element, click_element_by_index, h]
  · simp [input_text, input_text_by_index, h]

/-- Looking up an id in the registry after evicting that id finds
nothing. -/
theorem lookup_erase_self (reg : InterventionRegistry) (iid : String) :
    lookup_intervention (erase_intervention reg iid) iid = none := by
  induction reg with
  | nil => rfl
  | cons iv rest ih =>
    by_cases h : iv.id = iid
    · simpa [erase_intervention, List.filter_cons, h] using ih
    · simp only [erase_intervention, List.filter_cons] at ih ⊢
      simp only [lookup_intervention] at ih ⊢
      simp [h, List.find?_cons, ih]

/-- Claim C3: a pending intervention whose elapsed time strictly
exceeds its timeout undergoes the lazy timeout transition on the next
status read — the call reports the terminal `timeout` status with
`completed_at` stamped to the read time, the request is evicted from
the active registry, and a second status call for the same id fails
with the intervention-not-found error. -/
theorem intervention_lazy_timeout (reg : InterventionRegistry)
    (iid : String) (iv : InterventionReq) (now now2 : Int)
    (hfind : lookup_intervention reg iid = some iv)
    (hp : iv.status = IvStatus.pending)
    (ht : now - iv.created_at > iv.timeout_seconds) :
    (get_intervention_status reg now (some iid)).2 =
      StatusOutcome.ok iid IvStatus.timeout none (some now) ∧
    lookup_intervention (get_intervention_status reg now (some iid)).1
      iid = none ∧
    get_intervention_status (get_intervention_status reg now (some iid)).1
      now2 (some iid) =
      ((get_intervention_status reg now (some iid)).1,
       StatusOutcome.failure ErrKind.interventionNotFound) := by
  have hid : iv.id = iid := by
    have hfs := List.find?_some hfind
    simpa using hfs
  have h1 : get_intervention_status reg now (some iid) =
      (erase_intervention reg iid,
       StatusOutcome.ok iid IvStatus.timeout none (some now)) := by
    simp [get_intervention_status, hfind, process_status, hp, ht, hid]
  rw [h1]
  refine ⟨rfl, lookup_erase_self reg iid, ?_⟩
  simp [get_intervention_status, lookup_erase_self reg iid]

/-- Witness for the C3 theorem: one pending intervention with a
10-second timeout created at time 0, polled at time 11 and again at
time 12. -/
theorem intervention_lazy_timeout_witness :
    (lookup_intervention [sample_intervention] "a" =
       some sample_intervention ∧
     sample_intervention.status = IvStatus.pending ∧
     (11 : Int) - sample_intervention.created_at >
       sample_intervention.timeout_seconds) ∧
    ((get_intervention_status [sample_intervention] 11 (some "a")).2 =
       StatusOutcome.ok "a" IvStatus.timeout none (some 11) ∧
     lookup_intervention
       (get_intervention_status [sample_intervention] 11 (some "a")).1
       "a" = none ∧
     get_intervention_status
       (get_intervention_status [sample_intervention] 11 (some "a")).1
       12 (some "a") =
       ((get_intervention_status [sample_intervention] 11 (some "a")).1,
        StatusOutcome.failure ErrKind.interventionNotFound)) :=
  ⟨⟨by decide, by decide, by decide⟩,
   intervention_lazy_timeout [sample_intervention] "a"
     sample_intervention 11 12 (by decide) (by decide) (by decide)⟩

/-- The drag path has exactly `steps` positions. -/
theorem drag_path_length (sx sy tx ty : ℚ) (steps : Nat) :
    (drag_path sx sy tx ty steps).length = steps := by
  simp only [drag_path, List.length_map, List.length_range]

/-- The i-th drag position is the linear interpolation
`source + (target - source) / steps * (i + 1)`. -/
theorem drag_path_get (sx sy tx ty : ℚ) (steps : Nat) (i : Nat)
    (h : i < (drag_path sx sy tx ty steps).length) :
    (drag_path sx sy tx ty steps).get ⟨i, h⟩ =
      (sx + (tx - sx) / steps * (i + 1),
       sy + (ty - sy) / steps * (i + 1)) := by
  simp only [drag_path, List.get_eq_getElem, List.getElem_map,
    List.getElem_range]

/-- Claim C7: the drag path consists of `steps` mouse positions (with
`steps` defaulting to 10 and the inter-step delay to 5 ms when
unspecified), where position `i` is the linear interpolation
`source + (target - source) / steps * (i + 1)` — evenly spaced points
ending at the target; in particular a drag from (0,0) to (100,0) with
4 steps moves through x = 25, 50, 75, 100. -/
theorem drag_path_linear (sx sy tx ty : ℚ) (steps? delay? : Option Nat) :
    (steps? = none → (drag_params steps? delay?).1 = 10) ∧
    (delay? = none → (drag_params steps? delay?).2 = 5) ∧
    (drag_path sx sy tx ty (drag_params steps? delay?).1).length =
      (drag_params steps? delay?).1 ∧
    (∀ i (h : i < (drag_path sx sy tx ty
        (drag_params steps? delay?).1).length),
      (drag_path sx sy tx ty (drag_params steps? delay?).1).get ⟨i, h⟩ =
        (sx + (tx - sx) / ((drag_params steps? delay?).1 : ℚ) * (i + 1),
         sy + (ty - sy) / ((drag_params steps? delay?).1 : ℚ) * (i + 1))) ∧
    drag_path 0 0 100 0 4 = [(25, 0), (50, 0), (75, 0), (100, 0)] := by
  refine ⟨?_, ?_, ?_, ?_, ?_⟩
  · intro h
    subst h
    rfl
  · intro h
    subst h
    rfl
  · exact drag_path_length sx sy tx ty (drag_params steps? delay?).1
  · intro i h
    exact drag_path_get sx sy tx ty (drag_params steps? delay?).1 i h
  · norm_num [drag_path, List.range_succ]

/-- Witness for the C7 theorem: both defaults and the concrete 4-step
drag from (0,0) to (100,0). -/
theorem drag_path_linear_witness :
    (drag_params none none).1 = 10 ∧
    (drag_params none none).2 = 5 ∧
    drag_path 0 0 100 0 4 = [(25, 0), (50, 0), (75, 0), (100, 0)] :=
  ⟨(drag_path_linear 0 0 100 0 none none).1 rfl,
   (drag_path_linear 0 0 100 0 none none).2.1 rfl,
   (drag_path_linear 0 0 100 0 none none).2.2.2.2⟩

/-- Claim C9: for a non-empty cookie name and value, `_set_cookie`
reports success exactly when one of its two verification listings
contains a cookie with matching name and value — it never reports
success without the cookie being observable, and reports failure once
both verification attempts are exhausted. -/
theorem set_cookie_success_iff_observed (name value : String)
    (jar1 jar2 : List BrowserCookie)
    (hn : name ≠ "") (hv : value ≠ "") :
    set_cookie_verify name value jar1 jar2 = true ↔
      (∃ c ∈ jar1, c.name = name ∧ c.value = value) ∨
      (∃ c ∈ jar2, c.name = name ∧ c.value = value) := by
  have hcond : ¬(name = "" ∨ value = "") := by
    rintro (h | h)
    · exact hn h
    · exact hv h
  rw [set_cookie_verify, if_neg hcond]
  by_cases h1 : jar1.any (cookie_matches name value) = true
  · rw [if_pos h1]
    simp only [true_iff]
    left
    simpa [cookie_matches, List.any_eq_true] using h1
  · rw [if_neg h1]
    by_cases h2 : jar2.any (cookie_matches name value) = true
    · rw [if_pos h2]
      simp only [true_iff]
      right
      simpa [cookie_matches, List.any_eq_true] using h2
    · rw [if_neg h2]
      refine ⟨fun hh => absurd hh (by simp), fun hh => ?_⟩
      rcases hh with hh | hh
      · exact absurd (by simpa [cookie_matches, List.any_eq_true]
          using hh : jar1.any (cookie_matches name value) = true) h1
      · exact absurd (by simpa [cookie_matches, List.any_eq_true]
          using hh : jar2.any (cookie_matches name value) = true) h2

/-- Witness for the C9 theorem: cookie ("n", "v") observed in the first
verification listing. -/
theorem set_cookie_success_iff_observed_witness :
    (("n" : String) ≠ "" ∧ ("v" : String) ≠ "") ∧
    (set_cookie_verify "n" "v" [⟨"n", "v"⟩] [] = true ↔
      (∃ c ∈ [(⟨"n", "v"⟩ : BrowserCookie)],
        c.name = "n" ∧ c.value = "v") ∨
      (∃ c ∈ ([] : List BrowserCookie),
        c.name = "n" ∧ c.value = "v")) :=
  ⟨⟨by decide, by decide⟩,
   set_cookie_success_iff_observed "n" "v" [⟨"n", "v"⟩] []
     (by decide) (by decide)⟩
